import Mathlib

/-
Verification of the TelegramActionHub polling, dispatch and connection-state
core. The definitions below are a shallow embedding of the JavaScript source:

  * `src/api/telegramAPI.js` — the `TelegramAPI` class (transport, state
    machine, dispatcher) and the `createTelegramAPI` axios factory with its
    retry interceptor;
  * the application component (`App`) — its `checkTelegramUpdates` poll cycle
    guarded by the `processing` flag.

Side effects (network calls, handler invocations, logging, listener
notification, timer scheduling) are reified as an explicit list of `HAction`
values produced by each operation, and the mutable fields of the singleton
become explicit state records threaded through the functions. Outcomes of
network requests and of user-registered handlers are parameters, so theorems
quantify over every possible transport/handler behaviour.
-/

namespace TelegramActionHub

/-- A Telegram chat, carrying its numeric id. -/
structure Chat where
  id : Int
deriving DecidableEq, Repr

/-- A Telegram message: the chat it belongs to and optional text. -/
structure Message where
  chat : Chat
  text : Option String
deriving DecidableEq, Repr

/-- A callback query (inline-button press): ack id, data string, and the
message it is attached to. -/
structure CallbackQuery where
  id : Int
  data : String
  message : Message
deriving DecidableEq, Repr

/-- One update from getUpdates: `update_id` plus an optional message and an
optional callback query, exactly the fields the dispatcher reads. -/
structure Update where
  update_id : Int
  message : Option Message
  callback_query : Option CallbackQuery
deriving DecidableEq, Repr

/-- Reified side effects of the core: network calls, handler invocations,
log lines, listener notifications and timer scheduling. -/
inductive HAction where
  | getUpdatesCall (offset : Int)
  | setCursor (v : Int)
  | getMeCall
  | answerCallback (cbId : Int)
  | invokeHandler (key : String) (param : Option String)
  | invokeCommand (key : String) (args : List String)
  | invokeMessageHandler
  | sendMessage (text : String)
  | notifyListeners (status : Bool)
  | scheduleReconnect (delay : Nat)
  | logInfo (msg : String)
  | logDebug (msg : String)
  | logWarning (msg : String)
  | logError (msg : String)
  | logSuccess (msg : String)
deriving DecidableEq, Repr

/-- The axios instance configuration built by `createTelegramAPI`. -/
structure AxiosInstance where
  baseURL : String
  timeout : Nat
deriving DecidableEq, Repr

/-- Embedding of `createTelegramAPI(token)`: returns `null` (here `none`)
when the token is falsy, otherwise an axios instance for the bot base URL. -/
def createTelegramAPI (token : String) : Option AxiosInstance :=
  if token = "" then none
  else some { baseURL := "https://api.telegram.org/bot" ++ token, timeout := 15000 }

/-- The mutable instance fields of the `TelegramAPI` class, with the
constructor defaults. -/
structure ApiState where
  token : String := ""
  chatId : String := ""
  api : Option AxiosInstance := none
  lastUpdateId : Int := 0
  connected : Bool := false
  reconnectAttempts : Nat := 0
  maxReconnectAttempts : Nat := 10
  isPolling : Bool := false
deriving DecidableEq, Repr

/-- Embedding of `TelegramAPI.setConnected(status)`: store the status and
notify listeners only when the value actually changed. -/
def setConnected (st : ApiState) (status : Bool) : ApiState × List HAction :=
  let wasConnected := st.connected
  let st1 := { st with connected := status }
  if wasConnected != status then
    (st1, [HAction.logInfo ("Telegram connection status: " ++
             (if status then "Connected" else "Disconnected")),
           HAction.notifyListeners status])
  else
    (st1, [])

/-- Embedding of `TelegramAPI.stopUpdatePolling()`: clear the interval and
drop the `isPolling` flag. -/
def stopUpdatePolling (st : ApiState) : ApiState :=
  { st with isPolling := false }

/-- Embedding of `TelegramAPI.startUpdatePolling()`: no-op when already
polling, otherwise arm the 3000 ms interval and set `isPolling`. -/
def startUpdatePolling (st : ApiState) : ApiState :=
  if st.isPolling then st else { st with isPolling := true }

/-- Embedding of `TelegramAPI.handleDisconnection()`: flip to disconnected,
stop polling, and either schedule a reconnect timer after
`min(30000, 2^reconnectAttempts * 1000)` ms or, past the attempt budget,
give up with an error log. -/
def handleDisconnection (st : ApiState) : ApiState × List HAction :=
  let p1 := setConnected st false
  let st2 := stopUpdatePolling p1.1
  if st2.reconnectAttempts < st2.maxReconnectAttempts then
    let delay := min 30000 (2 ^ st2.reconnectAttempts * 1000)
    (st2, p1.2 ++ [HAction.logWarning "Telegram disconnected, reconnecting",
                   HAction.scheduleReconnect delay])
  else
    (st2, p1.2 ++ [HAction.logError "Failed to reconnect to Telegram after max attempts"])

/-- Embedding of the reconnect timer body prefix: `this.reconnectAttempts++`
fires when the scheduled timeout elapses. -/
def reconnectTimerFire (st : ApiState) : ApiState :=
  { st with reconnectAttempts := st.reconnectAttempts + 1 }

/-- The reconnect delays scheduled in an action trace. -/
def scheduledDelays (acts : List HAction) : List Nat :=
  acts.filterMap fun a =>
    match a with
    | HAction.scheduleReconnect d => some d
    | _ => none

/-- Trace of backoff delays over consecutive connection failures: each
`handleDisconnection` schedules a timer; when it fires the attempt counter is
incremented and the liveness check fails again, landing in
`handleDisconnection` once more. Fuel bounds the recursion; the loop stops by
itself once no further timer is scheduled. -/
def consecutiveFailureDelays : Nat → ApiState → List Nat
  | 0, _ => []
  | fuel + 1, st =>
    let p := handleDisconnection st
    match scheduledDelays p.2 with
    | [] => []
    | d :: _ => d :: consecutiveFailureDelays fuel (reconnectTimerFire p.1)

/-- The dispatcher environment: the command-handler registry (a key maps to
the registered handler, modelled by the outcome it produces on a given
update — `ok` or the exception message it throws), and the outcome of the
`answerCallbackQuery` network call per callback id. -/
structure Env where
  handlers : String → Option (Update → Except String Unit)
  ansOutcome : Int → Except String Unit

/-- Error component of an invocation outcome. -/
def errOf : Except String Unit → Option String
  | Except.ok _ => none
  | Except.error e => some e

/-- JS `String.prototype.split` with a one-character separator, on the
underlying character list: split never returns an empty list, and separators
at the ends produce empty groups, exactly as in JS. -/
def splitChars (sep : Char) : List Char → List (List Char)
  | [] => [[]]
  | c :: cs =>
    let r := splitChars sep cs
    if c = sep then [] :: r
    else (c :: r.headD []) :: r.tail

/-- JS `s.split(sep)` for a one-character separator. -/
def jsSplit (s : String) (sep : Char) : List String :=
  (splitChars sep s.toList).map String.mk

/-- JS `String.prototype.includes` for a one-character needle. -/
def jsIncludes (s : String) (c : Char) : Bool :=
  s.toList.contains c

/-- JS `String.prototype.startsWith` for a one-character prefix. -/
def jsStartsWith (s : String) (c : Char) : Bool :=
  match s.toList with
  | [] => false
  | x :: _ => x = c

/-- JS `s.substring(1)`. -/
def jsSubstring1 (s : String) : String :=
  String.mk s.toList.tail

/-- JS `String.prototype.toLowerCase` (ASCII, as used for command names). -/
def jsToLowerCase (s : String) : String :=
  String.mk (s.toList.map Char.toLower)

/-- The command part of `const [command, ...params] = data.split('_')`. -/
def cbSplitCommand (data : String) : String :=
  (jsSplit data '_').headD ""

/-- The parameter part `params.join('_')` of the same destructuring: the
remainder after the first underscore, later underscores preserved. -/
def cbSplitParam (data : String) : String :=
  String.intercalate "_" (jsSplit data '_').tail

/-- Embedding of the `if (update.callback_query)` block of
`TelegramAPI.processUpdate`: log, answer the callback query (whose rejection
propagates as an exception), then resolve the handler by exact key match,
falling back to the first-underscore split for parameterized commands.
Returns the action trace and the exception escaping the block, if any. -/
def handleCallbackQuery (env : Env) (u : Update) (cq : CallbackQuery) :
    List HAction × Option String :=
  let acts0 := [HAction.logInfo ("Received callback query: " ++ cq.data),
                HAction.answerCallback cq.id]
  match errOf (env.ansOutcome cq.id) with
  | some e => (acts0, some e)
  | none =>
    match env.handlers cq.data with
    | some h => (acts0 ++ [HAction.invokeHandler cq.data none], errOf (h u))
    | none =>
      if jsIncludes cq.data '_' then
        let command := cbSplitCommand cq.data
        match env.handlers command with
        | some h =>
          (acts0 ++ [HAction.invokeHandler command (some (cbSplitParam cq.data))],
           errOf (h u))
        | none =>
          (acts0 ++ [HAction.logWarning ("No handler for parameterized command: " ++ command)],
           none)
      else
        (acts0 ++ [HAction.logWarning ("No handler for command: " ++ cq.data),
                   HAction.sendMessage ("Command not implemented: " ++ cq.data)],
         none)

/-- Embedding of the `if (update.message?.text)` block of
`TelegramAPI.processUpdate`: slash-commands are parsed (name lowercased,
whitespace-separated parameters) and dispatched, unknown commands get an
error reply; plain text goes to the handler registered under the key
message when one exists and is silently ignored otherwise. -/
def handleMessageText (env : Env) (u : Update) (text : String) :
    List HAction × Option String :=
  let acts0 := [HAction.logInfo ("Received message: " ++ text)]
  if jsStartsWith text '/' then
    let fullCommand := jsSubstring1 text
    let parts := jsSplit fullCommand ' '
    let command := jsToLowerCase (parts.headD "")
    let params := parts.tail
    match env.handlers command with
    | some h =>
      (acts0 ++ [HAction.logDebug ("Executing command: " ++ command),
                 HAction.invokeCommand command params],
       errOf (h u))
    | none =>
      (acts0 ++ [HAction.logWarning ("Unknown command: " ++ command),
                 HAction.sendMessage
                   ("Unknown command: /" ++ command ++ " - type /help for available commands.")],
       none)
  else
    match env.handlers "message" with
    | some h => (acts0 ++ [HAction.invokeMessageHandler], errOf (h u))
    | none => (acts0, none)

/-- The first authorization check of `processUpdate`: a present message whose
chat id, rendered with toString, differs from the configured chat id. -/
def wrongMessageChat (chatId : String) (u : Update) : Bool :=
  match u.message with
  | some m => toString m.chat.id != chatId
  | none => false

/-- The second authorization check of `processUpdate`: a present callback
query whose message chat id differs from the configured chat id. -/
def wrongCallbackChat (chatId : String) (u : Update) : Bool :=
  match u.callback_query with
  | some cq => toString cq.message.chat.id != chatId
  | none => false

/-- Body of `TelegramAPI.processUpdate` inside its try: authorization checks
with early return, then the callback block, then the message block (the JS
`update.message?.text` guard is falsy for missing or empty text). The second
component is the exception escaping to the catch, if any. -/
def processUpdateBody (env : Env) (chatId : String) (u : Update) :
    List HAction × Option String :=
  if wrongMessageChat chatId u then
    ([HAction.logWarning ("Received message from unauthorized chat: " ++
        toString ((u.message.map (fun m => m.chat.id)).getD 0))], none)
  else if wrongCallbackChat chatId u then
    ([HAction.logWarning ("Received callback from unauthorized chat: " ++
        toString ((u.callback_query.map (fun cq => cq.message.chat.id)).getD 0))], none)
  else
    let p1 :=
      match u.callback_query with
      | some cq => handleCallbackQuery env u cq
      | none => ([], none)
    match p1.2 with
    | some e => (p1.1, some e)
    | none =>
      let p2 :=
        match u.message with
        | some m =>
          match m.text with
          | some text => if text = "" then ([], none) else handleMessageText env u text
          | none => ([], none)
        | none => ([], none)
      (p1.1 ++ p2.1, p2.2)

/-- Embedding of `TelegramAPI.processUpdate`: the try body followed by the
catch block, which logs the exception and best-effort reports it to the
operator chat; the function itself never propagates an exception. -/
def processUpdate (env : Env) (chatId : String) (u : Update) : List HAction :=
  match processUpdateBody env chatId u with
  | (acts, none) => acts
  | (acts, some e) =>
    acts ++ [HAction.logError ("Error processing update: " ++ e),
             HAction.sendMessage ("Error processing command: " ++ e)]

/-- The `for (const update of updates) await this.processUpdate(update)`
loop: updates are dispatched one at a time, in array order. -/
def processBatch (env : Env) (chatId : String) : List Update → List HAction
  | [] => []
  | u :: rest => processUpdate env chatId u ++ processBatch env chatId rest

/-- Whether an action invokes a registered handler. -/
def isDispatchAction : HAction → Bool
  | HAction.invokeHandler _ _ => true
  | HAction.invokeCommand _ _ => true
  | HAction.invokeMessageHandler => true
  | _ => false

/-- Whether an action sends a chat message. -/
def isSendAction : HAction → Bool
  | HAction.sendMessage _ => true
  | _ => false

/-- A registered handler that always succeeds. -/
def okHandler : Update → Except String Unit := fun _ => Except.ok ()

/-- Environment with an empty registry and succeeding callback acks. -/
def env0 : Env :=
  { handlers := fun _ => none, ansOutcome := fun _ => Except.ok () }

/-- Environment registering only the key file. -/
def envFile : Env :=
  { handlers := fun k => if k = "file" then some okHandler else none,
    ansOutcome := fun _ => Except.ok () }

/-- A concrete callback query with data file_42 from chat 123. -/
def cb42 : CallbackQuery :=
  { id := 7, data := "file_42", message := { chat := { id := 123 }, text := none } }

/-- The update carrying `cb42`. -/
def u42 : Update := { update_id := 7, message := none, callback_query := some cb42 }

/-- A concrete message update. -/
def msgUpdate (uid cid : Int) (text : String) : Update :=
  { update_id := uid, message := some { chat := { id := cid }, text := some text },
    callback_query := none }

/-- Embedding of `TelegramAPI.getUpdates`: returns `[]` when not connected;
otherwise issues GET /getUpdates with offset `lastUpdateId + 1`. `fetch` is
the outcome of that request (already past the transport retry policy). On a
non-empty result the cursor is advanced to the `update_id` of the last
element before the list is returned to the caller; a rejected request lands
in the catch, which logs the failure and runs `handleDisconnection`. -/
def getUpdates (st : ApiState) (fetch : Except String (List Update)) :
    ApiState × List HAction × List Update :=
  if !st.connected then (st, [], [])
  else
    match fetch with
    | Except.ok updates =>
      match updates.getLast? with
      | some lastU =>
        ({ st with lastUpdateId := lastU.update_id },
         [HAction.getUpdatesCall (st.lastUpdateId + 1),
          HAction.setCursor lastU.update_id],
         updates)
      | none => (st, [HAction.getUpdatesCall (st.lastUpdateId + 1)], updates)
    | Except.error e =>
      let p := handleDisconnection st
      (p.1,
       HAction.getUpdatesCall (st.lastUpdateId + 1) ::
         HAction.logError ("Failed to get updates: " ++ e) :: p.2,
       [])

/-- Embedding of the body of the 3000 ms interval armed by
`TelegramAPI.startUpdatePolling`: when connected, fetch updates and process
each one in order; note that this trigger consults no processing flag. -/
def pollIntervalTick (env : Env) (st : ApiState)
    (fetch : Except String (List Update)) : ApiState × List HAction :=
  if st.connected then
    let g := getUpdates st fetch
    (g.1, g.2.1 ++ processBatch env g.1.chatId g.2.2)
  else (st, [])

/-- The App component state relevant to its update poller: the `processing`
reentrancy flag, the `isConnected` gate, and the shared `telegramAPI`
singleton state. -/
structure AppState where
  processing : Bool := false
  isConnected : Bool := false
  api : ApiState := {}
deriving DecidableEq, Repr

/-- Entry phase of the App `checkTelegramUpdates` up to and including
`setProcessing(true)` (the code before the first await): returns the state
at the first suspension point and whether the cycle proceeds. -/
def checkTelegramUpdatesEntry (s : AppState) : AppState × Bool :=
  if s.processing || !s.isConnected then (s, false)
  else ({ s with processing := true }, true)

/-- Embedding of the App `checkTelegramUpdates` poll cycle: early return
when already processing or not connected, otherwise set the processing flag,
fetch updates through the singleton, dispatch a non-empty batch in order,
and clear the flag in the finally block on every path. -/
def checkTelegramUpdates (env : Env) (s : AppState)
    (fetch : Except String (List Update)) : AppState × List HAction :=
  if s.processing || !s.isConnected then (s, [])
  else
    let s1 := { s with processing := true }
    let g := getUpdates s1.api fetch
    let acts2 :=
      if 0 < g.2.2.length then
        HAction.logInfo ("Received " ++ toString g.2.2.length ++ " updates from Telegram")
          :: processBatch env g.1.chatId g.2.2
      else []
    ({ s1 with api := g.1, processing := false }, g.2.1 ++ acts2)

/-- App state mid-cycle: the processing flag is set while the api singleton
is connected and its internal interval is armed. -/
def appMidCycle : AppState :=
  { processing := true, isConnected := true,
    api := { connected := true, isPolling := true, chatId := "123" } }

/-- App state with the flag already set (cycle in flight). -/
def appBusy : AppState :=
  { processing := true, isConnected := true, api := { connected := true } }

/-- App state ready for a cycle. -/
def appIdle : AppState :=
  { processing := false, isConnected := true,
    api := { connected := true, chatId := "123" } }

/-- Connected state with cursor 4. -/
def st45 : ApiState := { connected := true, lastUpdateId := 4, chatId := "123" }

/-- Callback update with id 5. -/
def up5 : Update :=
  { update_id := 5, message := none,
    callback_query := some { id := 5, data := "storage",
                             message := { chat := { id := 123 }, text := none } } }

/-- Callback update with id 6. -/
def up6 : Update :=
  { update_id := 6, message := none,
    callback_query := some { id := 6, data := "back",
                             message := { chat := { id := 123 }, text := none } } }

/-- Environment with a throwing handler under the key boom and a succeeding
handler under the key storage. -/
def envBoom : Env :=
  { handlers := fun k =>
      if k = "boom" then some (fun _ => Except.error "kaboom")
      else if k = "storage" then some okHandler else none,
    ansOutcome := fun _ => Except.ok () }

/-- Callback update whose handler throws. -/
def uBoom : Update :=
  { update_id := 8, message := none,
    callback_query := some { id := 8, data := "boom",
                             message := { chat := { id := 123 }, text := none } } }

/-- Callback update whose handler succeeds. -/
def uStorage : Update :=
  { update_id := 9, message := none,
    callback_query := some { id := 9, data := "storage",
                             message := { chat := { id := 123 }, text := none } } }

/-- Outcome of one physical HTTP attempt as seen by the response
interceptor: success, a network error carrying no status, or an HTTP error
status with its message. -/
inductive ReqOutcome where
  | ok
  | netError (msg : String)
  | httpError (status : Nat) (msg : String)
deriving DecidableEq, Repr

/-- The retry condition `!status || status >= 500 || status === 429` of the
response interceptor. -/
def retryableOutcome : ReqOutcome → Bool
  | ReqOutcome.ok => false
  | ReqOutcome.netError _ => true
  | ReqOutcome.httpError status _ => 500 ≤ status || status == 429

/-- The error message extracted by the interceptor. -/
def outcomeMessage : ReqOutcome → String
  | ReqOutcome.ok => ""
  | ReqOutcome.netError m => m
  | ReqOutcome.httpError _ m => m

/-- The response interceptor retry loop: `retry` is the bound `config.retry`
(the request interceptor sets it to 3) and the second argument is
`config._retryCount`, starting at 0. A retryable failure below the bound
increments the count, waits `2 ^ count * 1000` ms and reissues the request;
any other failure, or a retryable one at the bound, is rejected to the
caller. `attempts` lists the outcomes of the successive physical attempts;
the result is the final outcome together with the backoff delays in order. -/
def requestWithRetry (retry : Nat) : Nat → List ReqOutcome →
    Except String Unit × List Nat
  | _, [] => (Except.error "no response", [])
  | retryCount, o :: rest =>
    if o = ReqOutcome.ok then (Except.ok (), [])
    else if retryableOutcome o = true ∧ retryCount < retry then
      let p := requestWithRetry retry (retryCount + 1) rest
      (p.1, (2 ^ (retryCount + 1) * 1000) :: p.2)
    else (Except.error (outcomeMessage o), [])

/-- One request through the interceptors installed by `createTelegramAPI`:
retry bound 3, count starting at 0. -/
def telegramRequest (attempts : List ReqOutcome) :
    Except String Unit × List Nat :=
  requestWithRetry 3 0 attempts

/-- The getMe response payload fields read by `testConnection`. -/
structure BotInfo where
  id : Int
  username : String
deriving DecidableEq, Repr

/-- Embedding of `TelegramAPI.initialize(token, chatId)`: store the
credential, build the axios instance, and when both the instance and the
chat id are truthy set Connected, start polling and fire the getMe liveness
check (`testConnection()` is not awaited: the request is issued and its
outcome arrives later); otherwise set Disconnected. The boolean the method
returns is the `connected` field of the resulting state. -/
def initAPI (st : ApiState) (token chatId : String) : ApiState × List HAction :=
  let st1 := { st with token := token, chatId := chatId,
                       api := createTelegramAPI token }
  if st1.api.isSome && !(chatId == "") then
    let p := setConnected st1 true
    let st3 := startUpdatePolling p.1
    (st3, p.2 ++ [HAction.getMeCall])
  else
    let p := setConnected st1 false
    (p.1, p.2)

/-- Embedding of the continuation of `TelegramAPI.testConnection` once the
getMe outcome is known: a result whose bot id is truthy resets the reconnect
counter and reports success; a missing or falsy result reports failure; a
rejected request logs the error and runs `handleDisconnection`. -/
def testConnectionResolve (st : ApiState) (result : Except String (Option BotInfo)) :
    ApiState × List HAction × Bool :=
  match result with
  | Except.ok (some botInfo) =>
    if botInfo.id != 0 then
      ({ st with reconnectAttempts := 0 },
       [HAction.logSuccess ("Connected to Telegram bot: " ++ botInfo.username)],
       true)
    else (st, [], false)
  | Except.ok none => (st, [], false)
  | Except.error e =>
    let p := handleDisconnection st
    (p.1, HAction.logError ("Failed to connect to Telegram: " ++ e) :: p.2, false)

/-- C9: setting the connection state to the value it already has is a no-op:
for every current state, `setConnected` with that same value changes nothing
and fires no listener notification (the trace is empty), because notification
is gated on a change of the stored boolean state value. -/
theorem setConnected_idempotent (st : ApiState) :
    setConnected st st.connected = (st, []) := by
  simp [setConnected]

/-- C4 counterexample: starting from a fresh state (attempt counter 0), the
delay scheduled before the first reconnect attempt is 1000 ms, not
`min(30000, 1000 * 2^1) = 2000` ms as the claim states. -/
theorem backoff_first_delay_ne_claim :
    (consecutiveFailureDelays 12 {}).headD 0 = 1000 ∧
    min 30000 (1000 * 2 ^ 1) = 2000 ∧ (1000 : Nat) ≠ 2000 := by
  refine ⟨by decide, by decide, by decide⟩

/-- C4 amended: after consecutive connection failures the n-th reconnect
attempt (n = 1..10) is scheduled after exactly `min(30000, 1000 * 2^(n-1))`
milliseconds, and after the 10th failed attempt no further reconnect is ever
scheduled (the delay trace has exactly 10 entries even with surplus fuel). -/
theorem backoff_delay_sequence (n : Nat) (h1 : 1 ≤ n) (h2 : n ≤ 10) :
    (consecutiveFailureDelays 12 {}).get? (n - 1) =
      some (min 30000 (1000 * 2 ^ (n - 1))) ∧
    (consecutiveFailureDelays 12 {}).length = 10 := by
  constructor
  · interval_cases n <;> decide
  · decide

/-- Witness for the amended C4 theorem at n = 1. -/
theorem backoff_delay_sequence_witness :
    (consecutiveFailureDelays 12 {}).get? 0 = some (min 30000 (1000 * 2 ^ 0)) :=
  (backoff_delay_sequence 1 (by decide) (by decide)).1

/-- C3: an update whose chat id (message chat, and callback chat when
present) differs from the configured chat id is dropped with a single
warning: its processing trace invokes no handler and sends no reply. -/
theorem unauthorized_chat_dropped (env : Env) (chatId : String) (u : Update)
    (hsome : u.message.isSome = true ∨ u.callback_query.isSome = true)
    (hmsg : ∀ m, u.message = some m → toString m.chat.id ≠ chatId)
    (hcb : ∀ cq, u.callback_query = some cq → toString cq.message.chat.id ≠ chatId) :
    (∃ w, processUpdate env chatId u = [HAction.logWarning w]) ∧
    ∀ a ∈ processUpdate env chatId u,
      isDispatchAction a = false ∧ isSendAction a = false := by
  have hpu : ∃ w, processUpdate env chatId u = [HAction.logWarning w] := by
    cases hm : u.message with
    | some m =>
      have h1 : wrongMessageChat chatId u = true := by
        simp [wrongMessageChat, hm, bne_iff_ne]
        exact hmsg m hm
      have htr : processUpdate env chatId u =
          [HAction.logWarning ("Received message from unauthorized chat: " ++
            toString ((u.message.map (fun m => m.chat.id)).getD 0))] := by
        simp [processUpdate, processUpdateBody, h1]
      exact ⟨_, htr⟩
    | none =>
      have hcbs : ∃ cq, u.callback_query = some cq := by
        rcases hsome with h | h
        · rw [hm] at h; simp at h
        · exact Option.isSome_iff_exists.mp h
      rcases hcbs with ⟨cq, hcq⟩
      have h1 : wrongMessageChat chatId u = false := by
        simp [wrongMessageChat, hm]
      have h2 : wrongCallbackChat chatId u = true := by
        simp [wrongCallbackChat, hcq, bne_iff_ne]
        exact hcb cq hcq
      have htr : processUpdate env chatId u =
          [HAction.logWarning ("Received callback from unauthorized chat: " ++
            toString ((u.callback_query.map (fun cq => cq.message.chat.id)).getD 0))] := by
        simp [processUpdate, processUpdateBody, h1, h2]
      exact ⟨_, htr⟩
  rcases hpu with ⟨w, hw⟩
  refine ⟨⟨w, hw⟩, ?_⟩
  intro a ha
  rw [hw] at ha
  simp at ha
  subst ha
  exact ⟨rfl, rfl⟩

/-- Witness for C3: a text update from chat 999 against configured chat 123
is reduced to a lone warning. -/
theorem unauthorized_chat_dropped_witness :
    ∃ w, processUpdate env0 "123" (msgUpdate 1 999 "/help") = [HAction.logWarning w] :=
  (unauthorized_chat_dropped env0 "123" (msgUpdate 1 999 "/help")
    (Or.inl rfl)
    (fun m hm => by
      simp [msgUpdate] at hm
      rw [← hm]
      decide)
    (fun cq hcq => by simp [msgUpdate] at hcq)).1

/-- C7: callback routing resolves the handler by exact key match on the data
string first; only when that fails and the data contains an underscore is it
split at the first underscore into a command part and a parameter part (the
remainder, later underscores preserved) and the handler under the command
part invoked with that parameter. Concretely, file_42 splits into command
file and parameter 42, and a_b_c keeps the later underscore in b_c. -/
theorem callback_routing (env : Env) (chatId : String) (u : Update)
    (cq : CallbackQuery)
    (hcq : u.callback_query = some cq) (hm : u.message = none)
    (hauth : toString cq.message.chat.id = chatId)
    (hans : env.ansOutcome cq.id = Except.ok ()) :
    (∀ h, env.handlers cq.data = some h → h u = Except.ok () →
      processUpdate env chatId u =
        [HAction.logInfo ("Received callback query: " ++ cq.data),
         HAction.answerCallback cq.id,
         HAction.invokeHandler cq.data none]) ∧
    (env.handlers cq.data = none → jsIncludes cq.data '_' = true →
      ∀ h, env.handlers (cbSplitCommand cq.data) = some h → h u = Except.ok () →
      processUpdate env chatId u =
        [HAction.logInfo ("Received callback query: " ++ cq.data),
         HAction.answerCallback cq.id,
         HAction.invokeHandler (cbSplitCommand cq.data) (some (cbSplitParam cq.data))]) ∧
    cbSplitCommand "file_42" = "file" ∧ cbSplitParam "file_42" = "42" ∧
    cbSplitCommand "a_b_c" = "a" ∧ cbSplitParam "a_b_c" = "b_c" := by
  have h1 : wrongMessageChat chatId u = false := by simp [wrongMessageChat, hm]
  have h2 : wrongCallbackChat chatId u = false := by
    simp [wrongCallbackChat, hcq, bne_iff_ne, hauth]
  refine ⟨?_, ?_, by decide, by decide, by decide, by decide⟩
  · intro h hreg hok
    simp [processUpdate, processUpdateBody, h1, h2, hcq, hm,
          handleCallbackQuery, hans, errOf, hreg, hok]
  · intro hnone hunder h hreg hok
    simp [processUpdate, processUpdateBody, h1, h2, hcq, hm,
          handleCallbackQuery, hans, errOf, hnone, hunder, hreg, hok]

/-- Witness for C7: with no handler for file_42 but one for file, the
dispatcher invokes the file handler with parameter 42. -/
theorem callback_routing_witness :
    processUpdate envFile "123" u42 =
      [HAction.logInfo "Received callback query: file_42",
       HAction.answerCallback 7,
       HAction.invokeHandler "file" (some "42")] := by
  have h := (callback_routing envFile "123" u42 cb42 rfl rfl (by decide) rfl).2.1
    rfl (by decide) okHandler rfl rfl
  rw [h]
  decide

/-- C10: an authorized plain-text message (not starting with a slash) never
goes through command parsing: the only handler that can be invoked is the
one registered under the key message, exactly once when it exists; with no
such handler the trace is just the receive log, so nothing is sent back. -/
theorem plain_message_routing (env : Env) (chatId : String) (u : Update)
    (m : Message) (text : String)
    (hm : u.message = some m) (hcb : u.callback_query = none)
    (ht : m.text = some text) (hne : text ≠ "")
    (hauth : toString m.chat.id = chatId)
    (hns : jsStartsWith text '/' = false) :
    (env.handlers "message" = none →
      processUpdate env chatId u = [HAction.logInfo ("Received message: " ++ text)]) ∧
    (∀ h, env.handlers "message" = some h →
      (processUpdate env chatId u).countP
        (fun a => decide (a = HAction.invokeMessageHandler)) = 1) ∧
    (∀ a ∈ processUpdate env chatId u, isDispatchAction a = true →
      a = HAction.invokeMessageHandler) := by
  have h1 : wrongMessageChat chatId u = false := by
    simp [wrongMessageChat, hm, bne_iff_ne, hauth]
  have h2 : wrongCallbackChat chatId u = false := by simp [wrongCallbackChat, hcb]
  refine ⟨?_, ?_, ?_⟩
  · intro hno
    simp [processUpdate, processUpdateBody, h1, h2, hcb, hm, ht, hne,
          handleMessageText, hns, hno]
  · intro h hreg
    cases hres : h u with
    | ok v =>
      simp [processUpdate, processUpdateBody, h1, h2, hcb, hm, ht, hne,
            handleMessageText, hns, hreg, hres, errOf, List.countP_cons]
    | error e =>
      simp [processUpdate, processUpdateBody, h1, h2, hcb, hm, ht, hne,
            handleMessageText, hns, hreg, hres, errOf, List.countP_cons,
            List.countP_append]
  · intro a ha hdisp
    rcases hreg : env.handlers "message" with _ | h
    · have htr : processUpdate env chatId u =
          [HAction.logInfo ("Received message: " ++ text)] := by
        simp [processUpdate, processUpdateBody, h1, h2, hcb, hm, ht, hne,
              handleMessageText, hns, hreg]
      rw [htr] at ha
      simp at ha
      subst ha
      simp [isDispatchAction] at hdisp
    · cases hres : h u with
      | ok v =>
        have htr : processUpdate env chatId u =
            [HAction.logInfo ("Received message: " ++ text),
             HAction.invokeMessageHandler] := by
          simp [processUpdate, processUpdateBody, h1, h2, hcb, hm, ht, hne,
                handleMessageText, hns, hreg, hres, errOf]
        rw [htr] at ha
        simp at ha
        rcases ha with ha | ha
        · subst ha; simp [isDispatchAction] at hdisp
        · exact ha
      | error e =>
        have htr : processUpdate env chatId u =
            [HAction.logInfo ("Received message: " ++ text),
             HAction.invokeMessageHandler,
             HAction.logError ("Error processing update: " ++ e),
             HAction.sendMessage ("Error processing command: " ++ e)] := by
          simp [processUpdate, processUpdateBody, h1, h2, hcb, hm, ht, hne,
                handleMessageText, hns, hreg, hres, errOf]
        rw [htr] at ha
        simp at ha
        rcases ha with ha | ha | ha | ha
        · subst ha; simp [isDispatchAction] at hdisp
        · exact ha
        · subst ha; simp [isDispatchAction] at hdisp
        · subst ha; simp [isDispatchAction] at hdisp

/-- Witness for C10: a plain message to the configured chat with no message
handler registered produces only the receive log line. -/
theorem plain_message_routing_witness :
    processUpdate env0 "123" (msgUpdate 2 123 "hello") =
      [HAction.logInfo "Received message: hello"] :=
  (plain_message_routing env0 "123" (msgUpdate 2 123 "hello")
    { chat := { id := 123 }, text := some "hello" } "hello"
    rfl rfl rfl (by decide) (by decide) (by decide)).1 rfl

/-- Dispatching a concatenation of batches is the concatenation of the
dispatch traces. -/
theorem processBatch_append (env : Env) (chatId : String) (l1 l2 : List Update) :
    processBatch env chatId (l1 ++ l2) =
      processBatch env chatId l1 ++ processBatch env chatId l2 := by
  induction l1 with
  | nil => simp [processBatch]
  | cons u rest ih => simp [processBatch, ih]

/-- In a strictly ascending batch the last element carries the maximal
update id. -/
theorem le_getLast_of_pairwise : ∀ (l : List Update) (hne : l ≠ []),
    l.Pairwise (fun a b => a.update_id < b.update_id) →
    ∀ u ∈ l, u.update_id ≤ (l.getLast hne).update_id := by
  intro l
  induction l with
  | nil => intro hne; exact absurd rfl hne
  | cons a t ih =>
    intro hne h u hu
    rw [List.pairwise_cons] at h
    rcases List.mem_cons.mp hu with rfl | hut
    · cases t with
      | nil => exact le_rfl
      | cons b t2 =>
        rw [List.getLast_cons (by simp)]
        exact le_of_lt (h.1 _ (List.getLast_mem (by simp)))
    · cases t with
      | nil => simp at hut
      | cons b t2 =>
        rw [List.getLast_cons (by simp)]
        exact ih (by simp) h.2 u hut

/-- C1 counterexample: while the processing flag is set, a firing of the
3000 ms interval armed by `TelegramAPI.startUpdatePolling` is not a no-op:
it still performs a getUpdates call, because that trigger never consults the
flag. -/
theorem poll_trigger_ignores_flag :
    appMidCycle.processing = true ∧
    appMidCycle.api.isPolling = true ∧
    (pollIntervalTick env0 appMidCycle.api (Except.ok [])).2 =
      [HAction.getUpdatesCall 1] := by
  refine ⟨rfl, rfl, by decide⟩

/-- C1 amended: the App checkTelegramUpdates trigger honors the reentrancy
guard: when the processing flag is already set the firing is a no-op with an
empty trace (no getUpdates call, no dispatch) and an unchanged state; when
the guard passes, the flag is set at entry, a second trigger firing during
the cycle is a no-op, and the flag is cleared in the finally block whatever
the fetch outcome. (The interval armed by `TelegramAPI.startUpdatePolling`
polls whenever connected without consulting the flag.) -/
theorem poll_reentrancy_guard (env : Env) (s : AppState)
    (fetch fetch2 : Except String (List Update)) :
    (s.processing = true → checkTelegramUpdates env s fetch = (s, [])) ∧
    (s.processing = false → s.isConnected = true →
      (checkTelegramUpdatesEntry s).2 = true ∧
      (checkTelegramUpdatesEntry s).1.processing = true ∧
      checkTelegramUpdates env (checkTelegramUpdatesEntry s).1 fetch2 =
        ((checkTelegramUpdatesEntry s).1, []) ∧
      (checkTelegramUpdates env s fetch).1.processing = false) := by
  constructor
  · intro hp
    simp [checkTelegramUpdates, hp]
  · intro hp hc
    refine ⟨by simp [checkTelegramUpdatesEntry, hp, hc],
            by simp [checkTelegramUpdatesEntry, hp, hc], ?_, ?_⟩
    · simp [checkTelegramUpdates, checkTelegramUpdatesEntry, hp, hc]
    · simp [checkTelegramUpdates, hp, hc]

/-- Witness for the amended C1 theorem: a busy state is left untouched with
an empty trace, and an idle state ends its cycle with the flag cleared. -/
theorem poll_reentrancy_guard_witness :
    checkTelegramUpdates env0 appBusy (Except.ok []) = (appBusy, []) ∧
    (checkTelegramUpdates env0 appIdle (Except.ok [])).1.processing = false :=
  ⟨(poll_reentrancy_guard env0 appBusy (Except.ok []) (Except.ok [])).1 rfl,
   ((poll_reentrancy_guard env0 appIdle (Except.ok []) (Except.ok [])).2 rfl rfl).2.2.2⟩

/-- C2: for a poll cycle whose fetch returns a non-empty ascending batch of
updates with ids beyond the current cursor, the cursor is set to the id of
the last element, which is the maximum of the batch; the setCursor action
precedes every dispatch and the updates are dispatched strictly in array
order; and the offset of the next cycle (lastUpdateId + 1) strictly exceeds
the offset of this cycle as well as every id of the batch, so no update is
ever requested twice. -/
theorem cursor_advance (env : Env) (st : ApiState) (updates : List Update)
    (hne : updates ≠ [])
    (hasc : updates.Pairwise (fun a b => a.update_id < b.update_id))
    (hnew : ∀ u ∈ updates, st.lastUpdateId < u.update_id)
    (hconn : st.connected = true) :
    (pollIntervalTick env st (Except.ok updates)).1.lastUpdateId =
      (updates.getLast hne).update_id ∧
    (∀ u ∈ updates, u.update_id ≤ (updates.getLast hne).update_id) ∧
    (pollIntervalTick env st (Except.ok updates)).2 =
      HAction.getUpdatesCall (st.lastUpdateId + 1)
        :: HAction.setCursor ((updates.getLast hne).update_id)
        :: processBatch env st.chatId updates ∧
    st.lastUpdateId + 1 <
      (pollIntervalTick env st (Except.ok updates)).1.lastUpdateId + 1 ∧
    ∀ u ∈ updates,
      u.update_id < (pollIntervalTick env st (Except.ok updates)).1.lastUpdateId + 1 := by
  have hl : updates.getLast? = some (updates.getLast hne) :=
    List.getLast?_eq_getLast updates hne
  have hmax := le_getLast_of_pairwise updates hne hasc
  have hstate : (pollIntervalTick env st (Except.ok updates)).1 =
      { st with lastUpdateId := (updates.getLast hne).update_id } := by
    simp [pollIntervalTick, getUpdates, hconn, hl]
  have htrace : (pollIntervalTick env st (Except.ok updates)).2 =
      HAction.getUpdatesCall (st.lastUpdateId + 1)
        :: HAction.setCursor ((updates.getLast hne).update_id)
        :: processBatch env st.chatId updates := by
    simp [pollIntervalTick, getUpdates, hconn, hl]
  refine ⟨by rw [hstate], hmax, htrace, ?_, ?_⟩
  · rw [hstate]
    show st.lastUpdateId + 1 < (updates.getLast hne).update_id + 1
    have := hnew _ (List.getLast_mem hne)
    omega
  · intro u hu
    rw [hstate]
    show u.update_id < (updates.getLast hne).update_id + 1
    have := hmax u hu
    omega

/-- Witness for C2: a batch with ids 5 and 6 over cursor 4 moves the cursor
to 6 and the offset strictly forward. -/
theorem cursor_advance_witness :
    (pollIntervalTick env0 st45 (Except.ok [up5, up6])).1.lastUpdateId = 6 ∧
    st45.lastUpdateId + 1 <
      (pollIntervalTick env0 st45 (Except.ok [up5, up6])).1.lastUpdateId + 1 := by
  have h := cursor_advance env0 st45 [up5, up6] (by decide) (by decide) (by decide) rfl
  exact ⟨by rw [h.1]; decide, h.2.2.2.1⟩

/-- C6: an exception thrown by a handler while processing one update of a
batch is caught: the trace of that update ends with the error log and the
best-effort error report to the operator chat, every later update of the
batch is still dispatched exactly as it would be on its own, and a poll
cycle whose fetch succeeded leaves the polling and connection state
untouched, so the next scheduled cycle still occurs. -/
theorem handler_failure_isolated (env : Env) (chatId : String) (u : Update)
    (e : String) (pre post : List Update)
    (hthrow : (processUpdateBody env chatId u).2 = some e) :
    processBatch env chatId (pre ++ u :: post) =
      processBatch env chatId pre ++
        ((processUpdateBody env chatId u).1 ++
          [HAction.logError ("Error processing update: " ++ e),
           HAction.sendMessage ("Error processing command: " ++ e)]) ++
        processBatch env chatId post ∧
    ∀ (st : ApiState) (updates : List Update),
      (pollIntervalTick env st (Except.ok updates)).1.isPolling = st.isPolling ∧
      (pollIntervalTick env st (Except.ok updates)).1.connected = st.connected := by
  constructor
  · have hb : processUpdateBody env chatId u =
        ((processUpdateBody env chatId u).1, some e) := by
      rw [← hthrow]
    have hu : processUpdate env chatId u =
        (processUpdateBody env chatId u).1 ++
          [HAction.logError ("Error processing update: " ++ e),
           HAction.sendMessage ("Error processing command: " ++ e)] := by
      unfold processUpdate
      rw [hb]
    rw [processBatch_append]
    simp [processBatch, hu, List.append_assoc]
  · intro st updates
    by_cases hc : st.connected
    · cases hl : updates.getLast? <;> simp [pollIntervalTick, getUpdates, hc, hl]
    · simp [pollIntervalTick, hc]

/-- Witness for C6: the throwing boom handler is followed by the full
dispatch of the storage update. -/
theorem handler_failure_isolated_witness :
    processBatch envBoom "123" ([] ++ uBoom :: [uStorage]) =
      processBatch envBoom "123" [] ++
        ((processUpdateBody envBoom "123" uBoom).1 ++
          [HAction.logError ("Error processing update: " ++ "kaboom"),
           HAction.sendMessage ("Error processing command: " ++ "kaboom")]) ++
        processBatch envBoom "123" [uStorage] :=
  (handler_failure_isolated envBoom "123" uBoom "kaboom" [] [uStorage] (by decide)).1

/-- A retryable outcome is never the success outcome. -/
theorem retryable_ne_ok {o : ReqOutcome} (h : retryableOutcome o = true) :
    ¬ o = ReqOutcome.ok := by
  intro he
  subst he
  simp [retryableOutcome] at h

/-- State component of `setConnected`. -/
theorem setConnected_fst (st : ApiState) (b : Bool) :
    (setConnected st b).1 = { st with connected := b } := by
  by_cases h : (st.connected != b) = true <;> simp [setConnected, h]

/-- `handleDisconnection` always leaves the state disconnected. -/
theorem handleDisconnection_connected (st : ApiState) :
    (handleDisconnection st).1.connected = false := by
  simp only [handleDisconnection, setConnected_fst, stopUpdatePolling]
  split <;> rfl

/-- Backoff delays of the retry loop: at most `retry - count` of them, the
i-th being `2 ^ (count + i + 1) * 1000` ms. -/
theorem requestWithRetry_delay_spec (retry : Nat) (attempts : List ReqOutcome) :
    ∀ rc : Nat,
      (requestWithRetry retry rc attempts).2.length ≤ retry - rc ∧
      ∀ i d, (requestWithRetry retry rc attempts).2.get? i = some d →
        d = 2 ^ (rc + i + 1) * 1000 := by
  induction attempts with
  | nil => intro rc; simp [requestWithRetry]
  | cons o rest ih =>
    intro rc
    by_cases ho : o = ReqOutcome.ok
    · simp [requestWithRetry, ho]
    · by_cases hr : retryableOutcome o = true ∧ rc < retry
      · have hlen := (ih (rc + 1)).1
        have hget := (ih (rc + 1)).2
        constructor
        · simp only [requestWithRetry, ho, hr, if_false, if_true, if_pos, if_neg,
                     not_false_iff, List.length_cons]
          simp [ho, hr]
          omega
        · intro i d hd
          simp only [requestWithRetry] at hd
          rw [if_neg ho, if_pos hr] at hd
          match i with
          | 0 =>
            simp at hd
            subst hd
            rfl
          | Nat.succ j =>
            simp only [List.get?_cons_succ] at hd
            have h2 := hget j d hd
            rw [h2]
            congr 1
            congr 1
            omega
      · simp [requestWithRetry, ho, hr]

/-- C8: the transport retries a failed request only on a network error, a
5xx status or status 429, at most 3 times, with a backoff delay of
`2 ^ attempt * 1000` ms before the attempt-th retry; a non-retryable failure
is rejected at once with no retry, four retryable failures in a row exhaust
the budget with delays 2000, 4000, 8000 ms and reject, and a rejected
getUpdates request is treated by the caller as a connection loss: the state
machine disconnects and, below the attempt budget, schedules a reconnect. -/
theorem transport_retry_policy :
    (∀ attempts, (telegramRequest attempts).2.length ≤ 3) ∧
    (∀ attempts i d, (telegramRequest attempts).2.get? i = some d →
      d = 2 ^ (i + 1) * 1000) ∧
    (∀ o rest, ¬ o = ReqOutcome.ok → retryableOutcome o = false →
      telegramRequest (o :: rest) = (Except.error (outcomeMessage o), [])) ∧
    (∀ o1 o2 o3 o4 rest,
      retryableOutcome o1 = true → retryableOutcome o2 = true →
      retryableOutcome o3 = true → retryableOutcome o4 = true →
      telegramRequest (o1 :: o2 :: o3 :: o4 :: rest) =
        (Except.error (outcomeMessage o4), [2000, 4000, 8000])) ∧
    (∀ (st : ApiState) (e : String), st.connected = true →
      (getUpdates st (Except.error e)).1.connected = false ∧
      (st.reconnectAttempts < st.maxReconnectAttempts →
        HAction.scheduleReconnect (min 30000 (2 ^ st.reconnectAttempts * 1000)) ∈
          (getUpdates st (Except.error e)).2.1)) := by
  refine ⟨?_, ?_, ?_, ?_, ?_⟩
  · intro attempts
    have h := (requestWithRetry_delay_spec 3 attempts 0).1
    simpa [telegramRequest] using h
  · intro attempts i d hd
    have h := (requestWithRetry_delay_spec 3 attempts 0).2 i d hd
    simpa using h
  · intro o rest ho hr
    simp [telegramRequest, requestWithRetry, ho, hr]
  · intro o1 o2 o3 o4 rest h1 h2 h3 h4
    simp [telegramRequest, requestWithRetry, retryable_ne_ok h1, h1,
          retryable_ne_ok h2, h2, retryable_ne_ok h3, h3,
          retryable_ne_ok h4, h4]
  · intro st e hconn
    constructor
    · simp [getUpdates, hconn, handleDisconnection_connected]
    · intro hatt
      simp [getUpdates, hconn, handleDisconnection, setConnected, hatt,
            stopUpdatePolling]

/-- Witness for C8: four straight network errors produce exactly the three
backoff delays 2000, 4000, 8000 ms and a final rejection. -/
theorem transport_retry_policy_witness :
    telegramRequest
        [ReqOutcome.netError "x", ReqOutcome.netError "x",
         ReqOutcome.netError "x", ReqOutcome.netError "x"] =
      (Except.error "x", [2000, 4000, 8000]) :=
  transport_retry_policy.2.2.2.1 (ReqOutcome.netError "x") (ReqOutcome.netError "x")
    (ReqOutcome.netError "x") (ReqOutcome.netError "x") [] rfl rfl rfl rfl

/-- `startUpdatePolling` only sets the `isPolling` flag. -/
theorem startUpdatePolling_spec (st : ApiState) :
    startUpdatePolling st = { st with isPolling := true } := by
  unfold startUpdatePolling
  split
  · next h => conv_rhs => rw [← h]
  · rfl

/-- C5 counterexample: with both fields present, initialize declares the
Connected state immediately, before the getMe liveness check resolves; even
when that check then fails, the state was Connected at the return of
initialize and is flipped back only afterwards by handleDisconnection. -/
theorem connected_before_liveness :
    ((initAPI {} "token" "123").1.connected = true) ∧
    ((testConnectionResolve (initAPI {} "token" "123").1
        (Except.error "network down")).1.connected = false) := by
  refine ⟨by decide, by decide⟩

/-- C5 amended: initialize validates that both fields are present: with
both present it immediately declares Connected, starts polling, and issues
the getMe liveness check whose outcome it does not await; a liveness check
that later fails flips the state back to Disconnected through
handleDisconnection; with either field missing the state is set
Disconnected. -/
theorem initAPI_spec (st : ApiState) (token chatId : String) :
    (token ≠ "" → chatId ≠ "" →
      (initAPI st token chatId).1.connected = true ∧
      (initAPI st token chatId).1.isPolling = true ∧
      (initAPI st token chatId).2.getLast? = some HAction.getMeCall ∧
      ∀ e, (testConnectionResolve (initAPI st token chatId).1
              (Except.error e)).1.connected = false) ∧
    ((token = "" ∨ chatId = "") →
      (initAPI st token chatId).1.connected = false) := by
  constructor
  · intro ht hc
    have hapi : (createTelegramAPI token).isSome = true := by
      simp [createTelegramAPI, ht]
    have hcb : (chatId == "") = false := beq_eq_false_iff_ne.mpr hc
    refine ⟨?_, ?_, ?_, ?_⟩
    · simp [initAPI, hapi, hcb, setConnected_fst, startUpdatePolling_spec]
    · simp [initAPI, hapi, hcb, setConnected_fst, startUpdatePolling_spec]
    · simp [initAPI, hapi, hcb]
    · intro e
      simp [testConnectionResolve, handleDisconnection_connected]
  · intro h
    rcases h with h | h
    · simp [initAPI, createTelegramAPI, h, setConnected_fst]
    · have hcb : (chatId == "") = true := by simp [h]
      simp [initAPI, hcb, setConnected_fst]

/-- Witness for the amended C5 theorem: with both fields the state is
Connected at return; with an empty token it is Disconnected. -/
theorem initAPI_spec_witness :
    (initAPI {} "t" "123").1.connected = true ∧
    (initAPI {} "" "123").1.connected = false :=
  ⟨((initAPI_spec {} "t" "123").1 (by decide) (by decide)).1,
   (initAPI_spec {} "" "123").2 (Or.inl rfl)⟩

end TelegramActionHub
